import Mathlib

/-!
Verification development for the spatial ATAC-seq pipeline orchestrator
(`wf/__init__.py`).  The pipeline wires three stages — linker filtering
(bbduk), barcode splitting (bc_process.py), and counting (cellranger-atac) —
and publishes artifacts to a remote namespace under `runs/<RunID>/...`.

The embedding models each `@large_task` function as a state-passing function
over a `World` (the task machine's scratch filesystem directories plus the
trace of external commands executed so far).  `subprocess.run` is modelled by
an exit-status oracle `exit : List String → Int`: the call records the command
in the trace and yields the oracle's return code, never raising — matching the
source, which never passes `check=True` and never reads the returned
`CompletedProcess`.  Python name resolution at the one `subprocess.run` call
site of `cellranger_task` is modelled explicitly, because the source binds the
command list to `_cr_command` but executes the name `cr_command`.
-/

namespace SpatialAtac

/-- A Latch file handle: a local filesystem path plus the remote location it
is published to on task return (`LatchFile(local, remote)` in the source). -/
structure LatchFile where
  local_path : String
  remote_path : String
deriving DecidableEq

/-- A Latch directory handle, as `LatchDir(local, remote)` in the source. -/
structure LatchDir where
  local_path : String
  remote_path : String
deriving DecidableEq

/-- The `Species` enum of the source: exactly two variants. -/
inductive Species where
  | mouse
  | human
deriving DecidableEq

/-- `Species.value`: the reference-genome package identifier each enum
variant carries in the source. -/
def Species.value : Species → String
  | .mouse => "refdata-cellranger-arc-mm10-2020-A-2.0.0"
  | .human => "refdata-cellranger-arc-GRCh38-2020-A-2.0.0"

/-- Failures the orchestration layer can surface: a Python `NameError`
(unbound name at a call site), a Python `FileExistsError` (raised by
`os.mkdir` on an existing directory), and rejection of the `run_id`
parameter by the Latch entry rule before any task runs. -/
inductive PipelineError where
  | nameError (name : String)
  | fileExistsError (path : String)
  | entryRejected (param : String)
deriving DecidableEq

/-- Task-machine state: the directories present on the local scratch
filesystem, and the trace of external commands executed so far. -/
structure World where
  dirs : List String
  executed : List (List String)
deriving DecidableEq

/-- `subprocess.run(cmd)` as the source uses it: the command is handed to the
OS (recorded in the trace) and the call returns the process exit status —
taken from the oracle `exit` — without raising; the source never passes
`check=True` and discards the returned `CompletedProcess`. -/
def subprocessRun (exit : List String → Int) (cmd : List String) (w : World) :
    Int × World :=
  (exit cmd, { w with executed := w.executed ++ [cmd] })

/-! ## Linker filter stage (`filter_task`)

`Path(f"...").resolve()` resolves relative names against the task working
directory, which is `/root` in the Latch task container — the source itself
hard-codes `/root/` for its stats files on the same filesystem. -/

/-- `Path(f"{run_id}_linker1_R1.fastq.gz").resolve()`. -/
def filteredR1L1 (run_id : String) : String :=
  "/root/" ++ run_id ++ "_linker1_R1.fastq.gz"

/-- `Path(f"{run_id}_linker1_R2.fastq.gz").resolve()`. -/
def filteredR2L1 (run_id : String) : String :=
  "/root/" ++ run_id ++ "_linker1_R2.fastq.gz"

/-- `Path(f"{run_id}_linker2_R1.fastq.gz").resolve()`. -/
def filteredR1L2 (run_id : String) : String :=
  "/root/" ++ run_id ++ "_linker2_R1.fastq.gz"

/-- `Path(f"{run_id}_linker2_R2.fastq.gz").resolve()`. -/
def filteredR2L2 (run_id : String) : String :=
  "/root/" ++ run_id ++ "_linker2_R2.fastq.gz"

/-- The first bbduk invocation (`_bbduk1_cmd` in the source), element by
element. -/
def bbduk1Cmd (r1_local r2_local run_id : String) : List String :=
  [ "bbmap/bbduk.sh",
    "in1=" ++ r1_local,
    "in2=" ++ r2_local,
    "outm1=" ++ filteredR1L1 run_id,
    "outm2=" ++ filteredR2L1 run_id,
    "skipr1=t",
    "k=30",
    "mm=f",
    "rcomp=f",
    "restrictleft=103",
    "hdist=3",
    "stats=/root/" ++ run_id ++ "_linker1_stats.txt",
    "threads=86",
    "literal=GTGGCCGATGTTTCGCATCGGCGTACGACT" ]

/-- The second bbduk invocation (`_bbduk2_cmd` in the source): its inputs are
the `outm` files of the first invocation. -/
def bbduk2Cmd (run_id : String) : List String :=
  [ "bbmap/bbduk.sh",
    "in1=" ++ filteredR1L1 run_id,
    "in2=" ++ filteredR2L1 run_id,
    "outm1=" ++ filteredR1L2 run_id,
    "outm2=" ++ filteredR2L2 run_id,
    "skipr1=t",
    "k=30",
    "mm=f",
    "rcomp=f",
    "restrictleft=65",
    "hdist=3",
    "stats=/root/" ++ run_id ++ "_linker2_stats.txt",
    "threads=46",
    "literal=ATCCACGTGCTTGAGAGGCCAGAGCATTCG" ]

/-- Remote location of the pass-2 read-1 output published by `filter_task`. -/
def filterR1Remote (run_id : String) : String :=
  "latch:///runs/" ++ run_id ++ "/cellranger_inputs/" ++ run_id
    ++ "_S1_L001_R1_001.fastq.gz"

/-- Remote location of the pass-2 read-2 output published by `filter_task`. -/
def filterR2Remote (run_id : String) : String :=
  "latch:///runs/" ++ run_id ++ "/preprocessing/" ++ run_id
    ++ "_linker2_R2.fastq.gz"

/-- `filter_task`: runs bbduk twice in sequence (pass 2 consuming pass 1's
output files) and returns the two pass-2 files as Latch file handles.
Neither exit status is inspected. -/
def filter_task (exit : List String → Int) (r1 r2 : LatchFile)
    (run_id : String) (w : World) :
    Except PipelineError (LatchFile × LatchFile) × World :=
  let (_, w1) := subprocessRun exit (bbduk1Cmd r1.local_path r2.local_path run_id) w
  let (_, w2) := subprocessRun exit (bbduk2Cmd run_id) w1
  (.ok (⟨filteredR1L2 run_id, filterR1Remote run_id⟩,
        ⟨filteredR2L2 run_id, filterR2Remote run_id⟩), w2)

/-! ## Barcode splitter stage (`process_bc_task`) -/

/-- `Path("cellranger_inputs/").resolve()`: a constant name, independent of
the run identifier. -/
def bcOutdir : String := "/root/cellranger_inputs"

/-- The `bc_process.py` invocation (`_bc_cmd` in the source). -/
def bcCmd (r2_local run_id : String) : List String :=
  [ "python",
    "bc_process.py",
    "--input",
    r2_local,
    "--output_R2",
    bcOutdir ++ "/" ++ run_id ++ "_S1_L001_R2_001.fastq",
    "--output_R3",
    bcOutdir ++ "/" ++ run_id ++ "_S1_L001_R3_001.fastq" ]

/-- Remote location the splitter stage's directory is published to. -/
def bcRemote (run_id : String) : String :=
  "latch:///runs/" ++ run_id ++ "/cellranger_inputs/"

/-- `process_bc_task`: `os.mkdir` the fixed output directory — raising
`FileExistsError` if it already exists, before any command runs — then run
the splitter script and return the directory handle. -/
def process_bc_task (exit : List String → Int) (r2 : LatchFile)
    (run_id : String) (w : World) :
    Except PipelineError LatchDir × World :=
  if bcOutdir ∈ w.dirs then
    (.error (.fileExistsError bcOutdir), w)
  else
    let w1 : World := { w with dirs := bcOutdir :: w.dirs }
    let (_, w2) := subprocessRun exit (bcCmd r2.local_path run_id) w1
    (.ok ⟨bcOutdir, bcRemote run_id⟩, w2)

/-! ## Counting stage (`cellranger_task`) -/

/-- The command list the source binds to the local name `_cr_command`. -/
def crCmd (run_id : String) (species : Species) (input_local : String) :
    List String :=
  [ "cellranger-atac-2.1.0/cellranger-atac",
    "count",
    "--id=" ++ run_id,
    "--reference=" ++ species.value,
    "--fastqs=" ++ input_local,
    "--localcores=96",
    "--localmem=192",
    "--force-cells=2500" ]

/-- Remote location the counting stage's `outs/` directory is published to. -/
def crRemote (run_id : String) : String :=
  "latch:///runs/" ++ run_id ++ "/outs/"

/-- Python name lookup over an environment of command-valued bindings. -/
def lookupName (n : String) (env : List (String × List String)) :
    Option (List String) :=
  (env.find? (fun p => decide (p.1 = n))).map Prod.snd

/-- `cellranger_task`: builds the command list, binding it to the local name
`_cr_command`, then executes `subprocess.run(cr_command)`.  The name
`cr_command` is resolved at the call site; the only command-valued binding in
scope is `_cr_command` (no enclosing or module-level scope of the source
binds `cr_command` either), so resolution fails with a `NameError` before
any process is started, and the `LatchDir` return is never reached. -/
def cellranger_task (exit : List String → Int) (input_dir : LatchDir)
    (run_id : String) (species : Species) (w : World) :
    Except PipelineError LatchDir × World :=
  let local_out := "/root/" ++ run_id ++ "/outs"
  let env := [("_cr_command", crCmd run_id species input_dir.local_path)]
  match lookupName "cr_command" env with
  | none => (.error (.nameError "cr_command"), w)
  | some cmd =>
    let (_, w1) := subprocessRun exit cmd w
    (.ok ⟨local_out, crRemote run_id⟩, w1)

/-! ## Orchestrator (`spatial_atac`) and entry validation -/

/-- `spatial_atac`: the strictly linear Filter → Split → Count composition of
the three tasks, threading `run_id` and `species` unchanged. -/
def spatial_atac (exit : List String → Int) (r1 r2 : LatchFile)
    (run_id : String) (species : Species) (w : World) :
    Except PipelineError LatchDir × World :=
  match filter_task exit r1 r2 run_id w with
  | (.error e, w1) => (.error e, w1)
  | (.ok (_, filtered_r2), w1) =>
    match process_bc_task exit filtered_r2 run_id w1 with
    | (.error e, w2) => (.error e, w2)
    | (.ok input_dir, w2) => cellranger_task exit input_dir run_id species w2

/-- One atom of the `run_id` validation regex: a literal character or the
`\d` digit class. -/
inductive RegexAtom where
  | lit (c : Char)
  | digit
deriving DecidableEq

/-- Whether one regex atom matches one character. -/
def atomMatches (a : RegexAtom) (c : Char) : Bool :=
  match a with
  | .lit d => decide (c = d)
  | .digit => c.isDigit

/-- A fully anchored atom-sequence regex matches a character list exactly
when they have the same length and match pointwise. -/
def regexMatches (r : List RegexAtom) (s : List Char) : Bool :=
  match r, s with
  | [], [] => true
  | a :: r, c :: s => atomMatches a c && regexMatches r s
  | _, _ => false

/-- The `LatchRule` regex of the `run_id` parameter,
`^(D\d{5}_NG\d{5})$`, as an anchored atom sequence. -/
def runIdRegex : List RegexAtom :=
  [ .lit 'D', .digit, .digit, .digit, .digit, .digit,
    .lit '_', .lit 'N', .lit 'G', .digit, .digit, .digit, .digit, .digit ]

/-- The entry-validation predicate on `run_id`. -/
def runIdOk (s : String) : Bool := regexMatches runIdRegex s.data

/-- Pipeline entry: the Latch platform checks the `run_id` `LatchRule` before
the workflow starts; a mismatch rejects the launch with no task executed. -/
def spatial_atac_entry (exit : List String → Int) (r1 r2 : LatchFile)
    (run_id : String) (species : Species) (w : World) :
    Except PipelineError LatchDir × World :=
  if runIdOk run_id then spatial_atac exit r1 r2 run_id species w
  else (.error (.entryRejected "run_id"), w)

/-- Read 1 of the "Test Data" launch plan (local path as materialized by the
platform; remote source location as registered in the launch plan). -/
def testDataR1 : LatchFile :=
  ⟨"/root/D01033_NG01681_S3_L001_R1_001.fastq.gz",
   "latch:///BASESPACE_IMPORTS/projects/PL000121/D01033_NG01681_L1/D01033_NG01681_S3_L001_R1_001.fastq.gz"⟩

/-- Read 2 of the "Test Data" launch plan. -/
def testDataR2 : LatchFile :=
  ⟨"/root/D01033_NG01681_S3_L001_R2_001.fastq.gz",
   "latch:///BASESPACE_IMPORTS/projects/PL000121/D01033_NG01681_L1/D01033_NG01681_S3_L001_R2_001.fastq.gz"⟩

/-- The run identifier of the "Test Data" launch plan. -/
def testDataRunId : String := "D01033_NG01681"

/-- A fresh task machine: no scratch directories, nothing executed. -/
def freshWorld : World := ⟨[], []⟩

/-- An exit-status oracle under which every external process succeeds. -/
def allOk : List String → Int := fun _ => 0

/-- The four remote locations the stages publish artifacts to, collected from
the `LatchFile`/`LatchDir` constructions of the three task bodies. -/
def publishedRemotePaths (run_id : String) : List String :=
  [ filterR1Remote run_id, filterR2Remote run_id,
    bcRemote run_id, crRemote run_id ]

/-- Splits a character list at its first underscore, if any. -/
def breakUnderscore : List Char → Option (List Char × List Char)
  | [] => none
  | c :: rest =>
    if c = '_' then some ([], rest)
    else
      match breakUnderscore rest with
      | none => none
      | some (a, b) => some (c :: a, b)

/-- One segment of the run-id pattern as the spec words it: a nonempty run
of letters followed by exactly five digits.  Stated from the spec's wording,
for comparison with the source's `LatchRule` regex. -/
def claimSegment (s : List Char) : Bool :=
  let letters := s.takeWhile (fun c => c.isAlpha)
  let rest := s.dropWhile (fun c => c.isAlpha)
  decide (letters ≠ []) && decide (rest.length = 5) && rest.all (fun c => c.isDigit)

/-- The run-id pattern as the spec words it — a letter segment with five
digits, underscore, a letter segment with five digits.  Stated from the
spec's wording, for comparison with the source's `LatchRule` regex. -/
def claimPattern (s : String) : Bool :=
  match breakUnderscore s.data with
  | some (a, b) => claimSegment a && claimSegment b
  | none => false

/-! ## Theorems -/

/-- Structural characterization of the `run_id` `LatchRule` regex
`^(D\d{5}_NG\d{5})$`: it accepts exactly the 14-character strings
`D` + five digits + `_NG` + five digits. -/
theorem runIdChars_iff (l : List Char) :
    regexMatches runIdRegex l = true ↔
      ∃ d1 d2 d3 d4 d5 e1 e2 e3 e4 e5 : Char,
        l = ['D', d1, d2, d3, d4, d5, '_', 'N', 'G', e1, e2, e3, e4, e5] ∧
        (d1.isDigit ∧ d2.isDigit ∧ d3.isDigit ∧ d4.isDigit ∧ d5.isDigit) ∧
        (e1.isDigit ∧ e2.isDigit ∧ e3.isDigit ∧ e4.isDigit ∧ e5.isDigit) := by
  constructor
  · intro h
    rcases l with _ | ⟨c1, _ | ⟨c2, _ | ⟨c3, _ | ⟨c4, _ | ⟨c5, _ | ⟨c6, _ | ⟨c7, _ | ⟨c8, _ | ⟨c9, _ | ⟨c10, _ | ⟨c11, _ | ⟨c12, _ | ⟨c13, _ | ⟨c14, _ | ⟨c15, l⟩⟩⟩⟩⟩⟩⟩⟩⟩⟩⟩⟩⟩⟩⟩ <;>
      simp_all [runIdRegex, regexMatches, atomMatches]
    exact ⟨c2, c3, c4, c5, c6, c10, c11, c12, c13, c14, by simp, by tauto, by tauto⟩
  · rintro ⟨d1, d2, d3, d4, d5, e1, e2, e3, e4, e5, rfl, hd, he⟩
    simp_all [runIdRegex, regexMatches, atomMatches]

/-- C1: on the "Test Data" launch plan inputs (run id `D01033_NG01681`,
species human), entry validation passes but the pipeline does not complete:
it aborts in the counting stage with `NameError: cr_command`, so the
terminal artifact at `runs/D01033_NG01681/outs/` is never produced. -/
theorem c1_testdata_pipeline_aborts :
    runIdOk testDataRunId = true ∧
    (spatial_atac_entry allOk testDataR1 testDataR2 testDataRunId
        Species.human freshWorld).1 = .error (.nameError "cr_command") :=
  ⟨by decide, rfl⟩

/-- C2: for every input, `cellranger_task` fails with
`NameError: cr_command` at its `subprocess.run` call — the command list is
bound to `_cr_command` but the name `cr_command` is executed — leaving the
world unchanged (the counting tool is never invoked) and never returning an
output directory. -/
theorem c2_cellranger_always_nameError (exit : List String → Int)
    (input_dir : LatchDir) (run_id : String) (species : Species) (w : World) :
    cellranger_task exit input_dir run_id species w
      = (.error (.nameError "cr_command"), w) := rfl

/-- C3: the `Species` enum maps mouse to
`refdata-cellranger-arc-mm10-2020-A-2.0.0` and human to
`refdata-cellranger-arc-GRCh38-2020-A-2.0.0`, and these are the only
variants. -/
theorem c3_species_mapping :
    Species.value .mouse = "refdata-cellranger-arc-mm10-2020-A-2.0.0" ∧
    Species.value .human = "refdata-cellranger-arc-GRCh38-2020-A-2.0.0" ∧
    ∀ s : Species, s = .mouse ∨ s = .human :=
  ⟨rfl, rfl, fun s => by cases s; exacts [.inl rfl, .inr rfl]⟩

/-- C4 counterexample: `E12345_NG67890` matches the claimed pattern (a
letter segment with five digits, underscore, a letter segment with five
digits) yet pipeline entry rejects it with no task executed, because the
source regex requires the literal prefix `D`. -/
theorem c4_claim_pattern_not_sufficient :
    claimPattern "E12345_NG67890" = true ∧
    spatial_atac_entry allOk testDataR1 testDataR2 "E12345_NG67890"
        Species.human freshWorld
      = (.error (.entryRejected "run_id"), freshWorld) :=
  ⟨by decide, rfl⟩

/-- C4 amended: entry succeeds exactly for run identifiers of the form
`D` + five digits + `_NG` + five digits (the regex `^(D\d{5}_NG\d{5})$`);
every other string is rejected at entry with no task executed. -/
theorem c4_run_id_validation (exit : List String → Int) (r1 r2 : LatchFile)
    (run_id : String) (species : Species) (w : World) :
    (runIdOk run_id = true ↔
      ∃ d1 d2 d3 d4 d5 e1 e2 e3 e4 e5 : Char,
        run_id.data = ['D', d1, d2, d3, d4, d5, '_', 'N', 'G', e1, e2, e3, e4, e5] ∧
        (d1.isDigit ∧ d2.isDigit ∧ d3.isDigit ∧ d4.isDigit ∧ d5.isDigit) ∧
        (e1.isDigit ∧ e2.isDigit ∧ e3.isDigit ∧ e4.isDigit ∧ e5.isDigit)) ∧
    (runIdOk run_id = false →
      spatial_atac_entry exit r1 r2 run_id species w
        = (.error (.entryRejected "run_id"), w)) ∧
    (runIdOk run_id = true →
      spatial_atac_entry exit r1 r2 run_id species w
        = spatial_atac exit r1 r2 run_id species w) := by
  refine ⟨runIdChars_iff run_id.data, fun h => ?_, fun h => ?_⟩ <;>
    simp [spatial_atac_entry, h]

/-- Witness for the amended C4 at the concrete run id `D01033_NG01681`. -/
theorem c4_run_id_validation_witness :
    spatial_atac_entry allOk testDataR1 testDataR2 "D01033_NG01681"
        Species.human freshWorld
      = spatial_atac allOk testDataR1 testDataR2 "D01033_NG01681"
          Species.human freshWorld :=
  (c4_run_id_validation allOk testDataR1 testDataR2 "D01033_NG01681"
    Species.human freshWorld).2.2 (by decide)

/-- C5: every remote path any stage publishes an artifact to has the form
`latch:///runs/<RunID>/<category>/<filename>` with the category one of
`preprocessing`, `cellranger_inputs`, `outs` — the run identifier is a
prefix component of every published artifact path. -/
theorem c5_published_path_convention (run_id p : String)
    (h : p ∈ publishedRemotePaths run_id) :
    ∃ cat fn, (cat = "preprocessing" ∨ cat = "cellranger_inputs" ∨ cat = "outs") ∧
      p = "latch:///runs/" ++ run_id ++ "/" ++ cat ++ "/" ++ fn := by
  simp only [publishedRemotePaths, List.mem_cons, List.mem_singleton,
    List.not_mem_nil, or_false] at h
  rcases h with rfl | rfl | rfl | rfl
  · exact ⟨"cellranger_inputs", run_id ++ "_S1_L001_R1_001.fastq.gz", by tauto,
      by apply String.ext; simp [filterR1Remote, String.data_append]⟩
  · exact ⟨"preprocessing", run_id ++ "_linker2_R2.fastq.gz", by tauto,
      by apply String.ext; simp [filterR2Remote, String.data_append]⟩
  · exact ⟨"cellranger_inputs", "", by tauto,
      by apply String.ext; simp [bcRemote, String.data_append]⟩
  · exact ⟨"outs", "", by tauto,
      by apply String.ext; simp [crRemote, String.data_append]⟩

/-- Witness for C5 at run id `D01033_NG01681` and the splitter stage's
published directory path. -/
theorem c5_published_path_convention_witness :
    ∃ cat fn, (cat = "preprocessing" ∨ cat = "cellranger_inputs" ∨ cat = "outs") ∧
      bcRemote "D01033_NG01681"
        = "latch:///runs/" ++ "D01033_NG01681" ++ "/" ++ cat ++ "/" ++ fn :=
  c5_published_path_convention "D01033_NG01681" (bcRemote "D01033_NG01681")
    (by simp [publishedRemotePaths])

/-- C6: the filter stage executes exactly two bbduk passes in order; both
skip read 1 (`skipr1=t`), keep matching reads (`outm` outputs), match a
fixed linker literal at Hamming distance 3 (`hdist=3`) with
reverse-complement matching disabled (`rcomp=f`), restricted left-anchored
to 103 bases on pass 1 and 65 on pass 2; pass 2's inputs are pass 1's
outputs; each pass writes a stats file named by the run id and pass
number. -/
theorem c6_filter_two_pass_structure (exit : List String → Int)
    (r1 r2 : LatchFile) (run_id : String) (w : World) :
    (filter_task exit r1 r2 run_id w).2.executed
        = w.executed ++ [bbduk1Cmd r1.local_path r2.local_path run_id,
                         bbduk2Cmd run_id] ∧
    ("skipr1=t" ∈ bbduk1Cmd r1.local_path r2.local_path run_id ∧
     "skipr1=t" ∈ bbduk2Cmd run_id) ∧
    ("rcomp=f" ∈ bbduk1Cmd r1.local_path r2.local_path run_id ∧
     "rcomp=f" ∈ bbduk2Cmd run_id) ∧
    ("hdist=3" ∈ bbduk1Cmd r1.local_path r2.local_path run_id ∧
     "hdist=3" ∈ bbduk2Cmd run_id) ∧
    ("restrictleft=103" ∈ bbduk1Cmd r1.local_path r2.local_path run_id ∧
     "restrictleft=65" ∈ bbduk2Cmd run_id) ∧
    (("in1=" ++ filteredR1L1 run_id) ∈ bbduk2Cmd run_id ∧
     ("in2=" ++ filteredR2L1 run_id) ∈ bbduk2Cmd run_id ∧
     ("outm1=" ++ filteredR1L1 run_id) ∈ bbduk1Cmd r1.local_path r2.local_path run_id ∧
     ("outm2=" ++ filteredR2L1 run_id) ∈ bbduk1Cmd r1.local_path r2.local_path run_id) ∧
    (("stats=/root/" ++ run_id ++ "_linker1_stats.txt")
        ∈ bbduk1Cmd r1.local_path r2.local_path run_id ∧
     ("stats=/root/" ++ run_id ++ "_linker2_stats.txt") ∈ bbduk2Cmd run_id) ∧
    ("literal=GTGGCCGATGTTTCGCATCGGCGTACGACT"
        ∈ bbduk1Cmd r1.local_path r2.local_path run_id ∧
     "literal=ATCCACGTGCTTGAGAGGCCAGAGCATTCG" ∈ bbduk2Cmd run_id) := by
  refine ⟨?_, ?_, ?_, ?_, ?_, ?_, ?_, ?_⟩ <;>
    simp [filter_task, subprocessRun, bbduk1Cmd, bbduk2Cmd]

/-- C7: the counting stage constructs the command
`cellranger-atac count --id=<run_id> --reference=<species ref>
--fastqs=<input> --localcores=96 --localmem=192 --force-cells=2500`, but it
never invokes the tool: the task aborts with `NameError: cr_command` at the
`subprocess.run` call, shown here at concrete inputs. -/
theorem c7_count_command_built_never_run :
    crCmd "D01033_NG01681" Species.human "/root/cellranger_inputs" =
      [ "cellranger-atac-2.1.0/cellranger-atac",
        "count",
        "--id=D01033_NG01681",
        "--reference=refdata-cellranger-arc-GRCh38-2020-A-2.0.0",
        "--fastqs=/root/cellranger_inputs",
        "--localcores=96",
        "--localmem=192",
        "--force-cells=2500" ] ∧
    cellranger_task allOk ⟨"/root/cellranger_inputs", bcRemote "D01033_NG01681"⟩
        "D01033_NG01681" Species.human freshWorld
      = (.error (.nameError "cr_command"), freshWorld) :=
  ⟨rfl, rfl⟩

/-- C8: the splitter stage is not idempotent: a first run for a run id
succeeds, and a second run for the same run id on the resulting state fails
with `FileExistsError` at `os.mkdir`, leaving the state unchanged — the
splitter script is not invoked a second time. -/
theorem c8_split_not_idempotent (exit : List String → Int)
    (r2a r2b : LatchFile) (run_id : String) (w : World)
    (h : bcOutdir ∉ w.dirs) :
    (process_bc_task exit r2a run_id w).1 = .ok ⟨bcOutdir, bcRemote run_id⟩ ∧
    process_bc_task exit r2b run_id (process_bc_task exit r2a run_id w).2
      = (.error (.fileExistsError bcOutdir),
         (process_bc_task exit r2a run_id w).2) := by
  constructor <;> simp [process_bc_task, subprocessRun, h]

/-- Witness for C8 on a fresh task machine. -/
theorem c8_split_not_idempotent_witness :
    (process_bc_task allOk testDataR2 testDataRunId freshWorld).1
        = .ok ⟨bcOutdir, bcRemote testDataRunId⟩ ∧
    process_bc_task allOk testDataR2 testDataRunId
        (process_bc_task allOk testDataR2 testDataRunId freshWorld).2
      = (.error (.fileExistsError bcOutdir),
         (process_bc_task allOk testDataR2 testDataRunId freshWorld).2) :=
  c8_split_not_idempotent allOk testDataR2 testDataR2 testDataRunId
    freshWorld (by simp [freshWorld])

/-- C9: the splitter stage's working directory name is the constant
`cellranger_inputs` — independent of the run identifier — so a second
invocation on the same machine collides even under a different run id:
for every pair of run ids, the second invocation fails with
`FileExistsError` and executes nothing. -/
theorem c9_split_collides_across_run_ids (exit : List String → Int)
    (r2a r2b : LatchFile) (rid1 rid2 : String) (w : World)
    (h : bcOutdir ∉ w.dirs) :
    (process_bc_task exit r2a rid1 w).1 = .ok ⟨bcOutdir, bcRemote rid1⟩ ∧
    process_bc_task exit r2b rid2 (process_bc_task exit r2a rid1 w).2
      = (.error (.fileExistsError bcOutdir),
         (process_bc_task exit r2a rid1 w).2) := by
  constructor <;> simp [process_bc_task, subprocessRun, h]

/-- Witness for C9 with two distinct run ids on a fresh task machine. -/
theorem c9_split_collides_across_run_ids_witness :
    (process_bc_task allOk testDataR2 "D01033_NG01681" freshWorld).1
        = .ok ⟨bcOutdir, bcRemote "D01033_NG01681"⟩ ∧
    process_bc_task allOk testDataR2 "D99999_NG99999"
        (process_bc_task allOk testDataR2 "D01033_NG01681" freshWorld).2
      = (.error (.fileExistsError bcOutdir),
         (process_bc_task allOk testDataR2 "D01033_NG01681" freshWorld).2) :=
  c9_split_collides_across_run_ids allOk testDataR2 testDataR2
    "D01033_NG01681" "D99999_NG99999" freshWorld (by simp [freshWorld])

/-- C10: the filter stage never interprets the external tool's exit status:
under every exit-status oracle — in particular when either bbduk pass
returns non-zero — `filter_task` completes and returns its two published
file handles. -/
theorem c10_filter_ignores_exit_status (exit : List String → Int)
    (r1 r2 : LatchFile) (run_id : String) (w : World) :
    (filter_task exit r1 r2 run_id w).1 =
      .ok (⟨filteredR1L2 run_id, filterR1Remote run_id⟩,
           ⟨filteredR2L2 run_id, filterR2Remote run_id⟩) := rfl

end SpatialAtac
